import Mathlib

/-!
Shallow embedding of the goadb device-session layer (assistd/goadb):
`device_state.go`, `device_descriptor.go`, the device operations shipped in
`adb_test.go` (RunCommand, State, dialDevice, getSyncConn, prepareCommandLine,
PushWithProgress and the copy helpers), and the small util file
(`wrapClientError`, `isBlank`).  External collaborators — the `wire`
connection library, the `internal/errors` package, the `pb` progress bar and
the operating system — are modelled as explicit outcome parameters
("worlds"), following the interface description in the spec (§6).
-/

/-- Whitespace characters of the Go RE2 class used by the blank-check
pattern in the util file: space, tab, newline, form feed, carriage return. -/
def goIsSpace (c : Char) : Bool :=
  c == ' ' || c == '\t' || c == '\n' || c == '\x0c' || c == '\r'

/-- Embeds isBlank from the util file: the whole string matches the
anchored whitespace-only pattern, so the empty string counts as blank. -/
def isBlank (s : String) : Bool :=
  s.toList.all goIsSpace

/-- Embeds the strings.ContainsRune double-quote check in prepareCommandLine. -/
def hasDoubleQuote (s : String) : Bool :=
  s.toList.any (fun c => c == '"')

/-- Does the second char list start with the first? -/
def charListStartsWith : List Char → List Char → Bool
  | [], _ => true
  | _ :: _, [] => false
  | a :: as, b :: bs => a == b && charListStartsWith as bs

/-- Does the char list contain the first list as a contiguous run? -/
def charListHasSub (sub : List Char) : List Char → Bool
  | [] => sub.isEmpty
  | b :: bs => charListStartsWith sub (b :: bs) || charListHasSub sub bs

/-- Embeds Go strings.Contains (substring containment). -/
def goContains (s sub : String) : Bool :=
  charListHasSub sub.toList s.toList

/-- Modelled from the spec: the error kinds of the repository's
internal errors package, which the source references but which is not
under src (spec §7: validation/assertion failure, parse failure,
not-found, connection failure, plus a catch-all). -/
inductive ErrCode where
  | assertionError
  | parseError
  | deviceNotFound
  | networkError
  | unknownCode
deriving DecidableEq

/-- Embeds deviceDescriptorType from device_descriptor.go. -/
inductive deviceDescriptorType where
  | DeviceAny
  | DeviceSerial
  | DeviceUsb
  | DeviceLocal
  | DeviceTransportId
deriving DecidableEq

/-- Embeds DeviceDescriptor from device_descriptor.go: a type tag plus the
serial payload (used by DeviceSerial) and the transportId payload (used by
DeviceTransportId); unused payload fields hold the Go zero value "". -/
structure DeviceDescriptor where
  descriptorType : deviceDescriptorType
  serial : String
  transportId : String
deriving DecidableEq

/-- Embeds the AnyDevice factory from device_descriptor.go. -/
def AnyDevice : DeviceDescriptor := ⟨.DeviceAny, "", ""⟩

/-- Embeds the AnyUsbDevice factory from device_descriptor.go. -/
def AnyUsbDevice : DeviceDescriptor := ⟨.DeviceUsb, "", ""⟩

/-- Embeds the AnyLocalDevice factory from device_descriptor.go. -/
def AnyLocalDevice : DeviceDescriptor := ⟨.DeviceLocal, "", ""⟩

/-- Embeds the DeviceWithSerial factory from device_descriptor.go. -/
def DeviceWithSerial (serial : String) : DeviceDescriptor :=
  ⟨.DeviceSerial, serial, ""⟩

/-- Embeds the DeviceWithTransportId factory from device_descriptor.go. -/
def DeviceWithTransportId (tid : String) : DeviceDescriptor :=
  ⟨.DeviceTransportId, "", tid⟩

/-- The name the stringer-generated String method gives each
descriptor-type constant. -/
def descTypeName : deviceDescriptorType → String
  | .DeviceAny => "DeviceAny"
  | .DeviceSerial => "DeviceSerial"
  | .DeviceUsb => "DeviceUsb"
  | .DeviceLocal => "DeviceLocal"
  | .DeviceTransportId => "DeviceTransportId"

/-- Embeds DeviceDescriptor.String from device_descriptor.go: the variant
name, with the serial appended in brackets only for the serial variant. -/
def descString (d : DeviceDescriptor) : String :=
  if d.descriptorType = .DeviceSerial then
    descTypeName d.descriptorType ++ "[" ++ d.serial ++ "]"
  else descTypeName d.descriptorType

/-- Embeds getHostPrefix from device_descriptor.go (exact literal per
variant; the Go default branch panics but is unreachable over the closed
enum, so the embedding is total). -/
def getHostPrefixStr (d : DeviceDescriptor) : String :=
  match d.descriptorType with
  | .DeviceAny => "host"
  | .DeviceUsb => "host-usb"
  | .DeviceLocal => "host-local"
  | .DeviceSerial => "host-serial:" ++ d.serial
  | .DeviceTransportId => "host-transport-id:" ++ d.transportId

/-- Embeds getTransportDescriptor from device_descriptor.go. -/
def getTransportDescriptor (d : DeviceDescriptor) : String :=
  match d.descriptorType with
  | .DeviceAny => "transport-any"
  | .DeviceUsb => "transport-usb"
  | .DeviceLocal => "transport-local"
  | .DeviceSerial => "transport:" ++ d.serial
  | .DeviceTransportId => "transport-id:" ++ d.transportId

/-- Models the Go error values the source manipulates: `adbErr` is the
library's uniform wrapped-error struct (the Code/Cause/Message/Details
fields are visible in the struct literal inside wrapClientError); `osErr`
stands for any other Go error value (an OS path error, a raw errno, ...)
that is not the library's type. -/
inductive GoError where
  | adbErr (code : ErrCode) (message : String) (cause : Option GoError)
      (details : Option DeviceDescriptor) : GoError
  | osErr (message : String) : GoError

/-- Models err.Error(): the human-readable message carried by the error
(for the library's type this is modelled from the spec, which says the
wrapped error carries a human-readable message). -/
def GoError.errMessage : GoError → String
  | .adbErr _ m _ _ => m
  | .osErr m => m

/-- Embeds the Device handle from the device file: it binds a descriptor
to a server; the server and its connections are modelled separately as
explicit worlds, so only the descriptor is carried here. -/
structure Device where
  descriptor : DeviceDescriptor
deriving DecidableEq

/-- Models fmt rendering of reflect.TypeOf(client): Go reflection sees
only the static type of the handle, so the rendering is the literal
type name, the same string for every device value. -/
def reflectTypeName (_ : Device) : String := "*adb.Device"

/-- Outcome of a call to wrapClientError: a returned error value, or a
Go panic escaping the call. -/
inductive WrapResult where
  | ok (e : Option GoError)
  | panicked (msg : String)

/-- Embeds wrapClientError from the util file: nil maps to nil, a value of
the library's error type is rewrapped with the operation and the client's
reflected type name in the message and the client as Details, and any
other error value panics.  The operation string is taken already
formatted (the Go code formats operation with its args first). -/
def wrapClientError (err : Option GoError) (client : Device) (operation : String) : WrapResult :=
  match err with
  | none => .ok none
  | some (.osErr m) => .panicked ("err is not a *Err: " ++ m)
  | some (.adbErr code m cse det) =>
    .ok (some (.adbErr code
      ("error performing " ++ operation ++ " on " ++ reflectTypeName client)
      (some (.adbErr code m cse det))
      (some client.descriptor)))

/-- Embeds DeviceState from device_state.go, together with the client-only
StateUnauthorized surfaced by the session layer (spec §3; the constant is
declared in repo code outside src). -/
inductive DeviceState where
  | StateInvalid
  | StateDisconnected
  | StateOffline
  | StateOnline
  | StateUnauthorized
deriving DecidableEq

/-- Embeds the deviceStateStrings map lookup from device_state.go. -/
def deviceStateLookup (s : String) : Option DeviceState :=
  if s = "" then some .StateDisconnected
  else if s = "offline" then some .StateOffline
  else if s = "device" then some .StateOnline
  else none

/-- Embeds parseDeviceState from device_state.go (the version at lines
53-60, whose not-found branch logs a diagnostic and returns
StateDisconnected with a nil error; the log write is modelled as a no-op). -/
def parseDeviceState (s : String) : DeviceState × Option GoError :=
  match deviceStateLookup s with
  | some st => (st, none)
  | none => (.StateDisconnected, none)

/-- First argument (with its index) containing a double quote, scanning in
order; embeds the argument loop of prepareCommandLine. -/
def findQuoteArg : List String → Nat → Option (Nat × String)
  | [], _ => none
  | a :: rest, i => if hasDoubleQuote a then some (i, a) else findQuoteArg rest (i + 1)

/-- Embeds prepareCommandLine from the device file: a blank command is an
assertion error; an argument containing a double quote is a parse error
(first offending index reported); otherwise the command and arguments are
joined with single spaces, in order (the containsWhitespace branch in the
source is empty, so whitespace-bearing arguments pass through unquoted). -/
def prepareCommandLine (cmd : String) (args : List String) : Except GoError String :=
  if isBlank cmd then
    .error (.adbErr .assertionError "command cannot be empty" none none)
  else
    match findQuoteArg args 0 with
    | some (i, a) =>
      .error (.adbErr .parseError
        ("arg at index " ++ toString i ++ " contains an invalid double quote: " ++ a)
        none none)
    | none =>
      if 0 < args.length then .ok (cmd ++ " " ++ String.intercalate " " args)
      else .ok cmd

/-- Effects observed on the single connection an operation dials: the
messages whose send was attempted, and how many times Close was called.
Models the close-call counter of the spec's testable property on mock
connections. -/
structure ConnLog where
  sentMessages : List String
  closeCalls : Nat
deriving DecidableEq

/-- One additional Close call on the connection. -/
def closeOnce (l : ConnLog) : ConnLog :=
  ⟨l.sentMessages, l.closeCalls + 1⟩

/-- Scripted outcomes of the wire-level collaborator for one operation
(spec §6: the connection library is external; each step either succeeds or
fails with an error).  `none` means the step succeeds. -/
structure TransportWorld where
  dialResult : Option GoError
  sendTransportResult : Option GoError
  readTransportStatus : Option GoError
  sendSyncResult : Option GoError
  readSyncStatus : Option GoError
  sendShellResult : Option GoError
  readShellStatus : Option GoError
  readEofResult : Option GoError
  eofBody : String

/-- Embeds dialDevice from the device file: dial; on success send
"host:<transport-descriptor>"; read the status reply.  A send failure
closes the connection and returns the error wrapped by errors.WrapErrf
(modelled from the spec as the library's uniform wrapped error; the Go
format string quotes the descriptor, rendered here without the quote
marks); a status-read failure closes the connection and returns the error
as is; on success the open connection is handed to the caller unclosed. -/
def dialDevice (w : TransportWorld) (d : DeviceDescriptor) : Except GoError Unit × ConnLog :=
  match w.dialResult with
  | some e => (.error e, ⟨[], 0⟩)
  | none =>
    let req := "host:" ++ getTransportDescriptor d
    match w.sendTransportResult with
    | some e =>
      (.error (.adbErr .networkError
        ("error connecting to device " ++ descString d) (some e) none),
       closeOnce ⟨[req], 0⟩)
    | none =>
      match w.readTransportStatus with
      | some e => (.error e, closeOnce ⟨[req], 0⟩)
      | none => (.ok (), ⟨[req], 0⟩)

/-- Embeds getSyncConn from the device file: dialDevice, then send
"sync:" and read its status reply; both failure branches in the source
return the error without closing the connection; on success the
connection is reinterpreted as a sync connection and handed to the
caller. -/
def getSyncConn (w : TransportWorld) (d : DeviceDescriptor) : Except GoError Unit × ConnLog :=
  match dialDevice w d with
  | (.error e, log) => (.error e, log)
  | (.ok _, log) =>
    let log2 : ConnLog := ⟨log.sentMessages ++ ["sync:"], log.closeCalls⟩
    match w.sendSyncResult with
    | some e => (.error e, log2)
    | none =>
      match w.readSyncStatus with
      | some e => (.error e, log2)
      | none => (.ok (), log2)

/-- Result of a public device operation: the Go return value paired with
the returned error, or a panic escaping the operation. -/
inductive OpOut (α : Type) where
  | ret (a : α) (e : Option GoError)
  | panicked (msg : String)

/-- Pairs a return value with the outcome of wrapClientError, propagating
a panic; models the Go pattern `return v, wrapClientError(err, c, op)`. -/
def retWrapped {α : Type} (a : α) : WrapResult → OpOut α
  | .ok e => .ret a e
  | .panicked m => .panicked m

/-- Embeds RunCommand from the device file: prepare the command line,
dial a device-scoped connection (deferring its close), send
"shell:<prepared command>", read the status line, then read until
end-of-stream and return the accumulated bytes as a string; every branch
routes its error through wrapClientError with operation "RunCommand".
On a read-until-eof failure the wire collaborator is modelled as
returning no bytes. -/
def RunCommand (w : TransportWorld) (dev : Device) (cmd : String) (args : List String) :
    OpOut String × ConnLog :=
  match prepareCommandLine cmd args with
  | .error e => (retWrapped "" (wrapClientError (some e) dev "RunCommand"), ⟨[], 0⟩)
  | .ok cmdLine =>
    match dialDevice w dev.descriptor with
    | (.error e, log) => (retWrapped "" (wrapClientError (some e) dev "RunCommand"), log)
    | (.ok _, log) =>
      let req := "shell:" ++ cmdLine
      let log2 : ConnLog := ⟨log.sentMessages ++ [req], log.closeCalls⟩
      match w.sendShellResult with
      | some e => (retWrapped "" (wrapClientError (some e) dev "RunCommand"), closeOnce log2)
      | none =>
        match w.readShellStatus with
        | some e => (retWrapped "" (wrapClientError (some e) dev "RunCommand"), closeOnce log2)
        | none =>
          match w.readEofResult with
          | some e => (retWrapped "" (wrapClientError (some e) dev "RunCommand"), closeOnce log2)
          | none => (retWrapped w.eofBody (wrapClientError none dev "RunCommand"), closeOnce log2)

/-- Embeds the State query from the device file, over the scripted outcome
of the getAttribute round trip: a fetch error whose rendered message
contains "unauthorized" becomes (StateUnauthorized, nil); any other fetch
error becomes (StateInvalid, wrapped error); a fetched token is classified
by parseDeviceState (which never errors). -/
def stateQuery (attrResult : Except GoError String) (dev : Device) : OpOut DeviceState :=
  match attrResult with
  | .error e =>
    if goContains ( GoError.errMessage e) "unauthorized" then .ret .StateUnauthorized none
    else retWrapped .StateInvalid (wrapClientError (some e) dev "State")
  | .ok attr =>
    match parseDeviceState attr with
    | (st, e2) => retWrapped st (wrapClientError e2 dev "State")

/-- The Unix broken-pipe errno checked by the copy helpers. -/
def EPIPE : Nat := 32

/-- Models the inner error of a Go os.PathError: a syscall errno, or any
other error value. -/
inductive GoSysErr where
  | errnoVal (n : Nat)
  | otherSys (msg : String)
deriving DecidableEq

/-- Models the Go error values io.Copy can surface in the copy helpers:
an os.PathError wrapping an inner error, a bare syscall errno, an error of
the library's uniform type (from the sync write stream), or any other
error value. -/
inductive CopyErr where
  | pathError (inner : GoSysErr)
  | errnoError (n : Nat)
  | adbError (code : ErrCode) (msg : String)
  | otherError (msg : String)
deriving DecidableEq

/-- Embeds the broken-pipe normalization shared by copyWithProgressAndStats
and copyFile: only an os.PathError whose inner error is the EPIPE errno is
rewritten to nil; every other error value is left unchanged. -/
def normalizePipeErr (err : Option CopyErr) : Option CopyErr :=
  match err with
  | some (.pathError (.errnoVal n)) =>
    if n = EPIPE then none else some (.pathError (.errnoVal n))
  | e => e

/-- Scripted behavior of one io.Copy run: the sizes of the successive
successful writes to the destination, followed by an optional error
(none is a clean end-of-stream). -/
structure CopyInput where
  chunks : List Nat
  copyErr : Option CopyErr
deriving DecidableEq

/-- Running cumulative byte counts after each successive write. -/
def runningSums : List Nat → Nat → List Nat
  | [], _ => []
  | c :: cs, acc => (acc + c) :: runningSums cs (acc + c)

/-- Total bytes written by the copy. -/
def sumChunks (chunks : List Nat) : Nat :=
  chunks.foldl (· + ·) 0

/-- Embeds the PushEvent payload delivered to the observer: cumulative
bytes so far and the expected total (the rate strings are timing output of
the external rate helper and are not modelled). -/
structure PushEventM where
  current : Nat
  total : Int
deriving DecidableEq

/-- Modelled from the spec: the external pb progress bar, which the copy
path feeds on every write and which invokes the observer callback as the
counter advances and once more from Finish, so the final event carries the
final cumulative count (spec §4.6: the counter periodically invokes the
observer; §8: the final cumulative-bytes value equals the total bytes
written). -/
def pbEvents (size : Int) (chunks : List Nat) : List PushEventM :=
  (runningSums chunks 0).map (fun n => ⟨n, size⟩) ++ [⟨sumChunks chunks, size⟩]

/-- Embeds copyWithProgressAndStats from the device file: when
showProgress is set, the size is positive and a callback is supplied, the
copy is instrumented with the progress bar and the observer receives its
events; otherwise no events are delivered.  The io.Copy error is passed
through the broken-pipe normalization.  Returns the copy error and the
events delivered to the observer. -/
def copyWithProgressAndStats (showProgress : Bool) (size : Int) (cbPresent : Bool)
    (input : CopyInput) : Option CopyErr × List PushEventM :=
  let events :=
    if showProgress = true ∧ 0 < size ∧ cbPresent = true then pbEvents size input.chunks
    else []
  (normalizePipeErr input.copyErr, events)

/-- Embeds copyFile from the directory-push file: the destination is
wrapped in a bufStats writer that reports the running count and the total
to the handler on every write, unconditionally; the io.Copy error goes
through the same broken-pipe normalization. -/
def copyFile (total : Int) (input : CopyInput) : Option CopyErr × List (Nat × Int) :=
  (normalizePipeErr input.copyErr,
   (runningSums input.chunks 0).map (fun n => (n, total)))

/-- Scripted outcomes of the collaborators of one PushWithProgress run:
the OS open and stat calls on the local path (a failure is an OS error,
not the library's type), the stat size, the OpenWrite step (an error of
the library's uniform type, per spec §6), and the io.Copy behavior. -/
structure PushWorld where
  osOpenErr : Option String
  osStatErr : Option String
  statSize : Int
  openWriteErr : Option GoError
  copyInput : CopyInput

/-- Maps a copy error back to the Go error value PushWithProgress hands to
wrapClientError: errors of the library's type keep their identity; every
other shape is a non-library Go error. -/
def copyErrToGo : CopyErr → GoError
  | .adbError code m => .adbErr code m none none
  | .pathError (.errnoVal n) => .osErr ("errno " ++ toString n)
  | .pathError (.otherSys m) => .osErr m
  | .errnoError n => .osErr ("errno " ++ toString n)
  | .otherError m => .osErr m

/-- Tail of PushWithProgress after the local source is resolved: OpenWrite,
then copyWithProgressAndStats; a copy error is wrapped (which panics when
the error is not the library's type). -/
def pushCore (w : PushWorld) (dev : Device) (showProgress : Bool) (size : Int)
    (cbPresent : Bool) : OpOut Unit × List PushEventM :=
  match w.openWriteErr with
  | some e => (retWrapped () (wrapClientError (some e) dev "PushWithProgress"), [])
  | none =>
    let r := copyWithProgressAndStats showProgress size cbPresent w.copyInput
    (match r.1 with
     | some ce => retWrapped () (wrapClientError (some (copyErrToGo ce)) dev "PushWithProgress")
     | none => .ret () none,
     r.2)

/-- Embeds PushWithProgress from the device file: an empty remote path is
rejected; an empty or "-" local path reads standard input with size 0;
otherwise the local file is opened and stat-ed (failures are OS errors fed
to wrapClientError); then OpenWrite and the instrumented copy run.  The
cancellation watcher closes the write stream from another goroutine and is
observable only through the copy error, so it needs no separate step
here. -/
def PushWithProgress (w : PushWorld) (dev : Device) (showProgress : Bool)
    (localPath remotePath : String) (cbPresent : Bool) : OpOut Unit × List PushEventM :=
  if remotePath = "" then
    (retWrapped () (wrapClientError
      (some (.adbErr .unknownCode "error: must specify remote file" none none))
      dev "PushWithProgress"), [])
  else if localPath = "" ∨ localPath = "-" then
    pushCore w dev showProgress 0 cbPresent
  else
    match w.osOpenErr with
    | some m => (retWrapped () (wrapClientError (some (.osErr m)) dev "PushWithProgress"), [])
    | none =>
      match w.osStatErr with
      | some m => (retWrapped () (wrapClientError (some (.osErr m)) dev "PushWithProgress"), [])
      | none => pushCore w dev showProgress w.statSize cbPresent

/-- The error kind carried by a prepareCommandLine result, if any. -/
def errCodeOf : Except GoError String → Option ErrCode
  | .error (.adbErr c _ _ _) => some c
  | _ => none

/-- Did the transport operation return an error? -/
def isErrRes : Except GoError Unit → Bool
  | .error _ => true
  | .ok _ => false

/-- The message of the error a wrapClientError call returned, if any. -/
def wrapMsgOf : WrapResult → Option String
  | .ok (some (.adbErr _ m _ _)) => some m
  | _ => none

/-- A sample wire-level failure of the library's uniform error type. -/
def sampleWireErr : GoError := .adbErr .networkError "write failed" none none

/-- World in which the transport-request send fails. -/
def worldSendTransportFails : TransportWorld :=
  ⟨none, some sampleWireErr, none, none, none, none, none, none, ""⟩

/-- World in which the transport status read fails. -/
def worldReadTransportFails : TransportWorld :=
  ⟨none, none, some sampleWireErr, none, none, none, none, none, ""⟩

/-- World in which dialing and the transport handshake succeed but the
"sync:" send fails. -/
def worldSendSyncFails : TransportWorld :=
  ⟨none, none, none, some sampleWireErr, none, none, none, none, ""⟩

/-- World in which every wire step of a shell run succeeds and the
stream delivers the given bytes before closing. -/
def worldShellOk (body : String) : TransportWorld :=
  ⟨none, none, none, none, none, none, none, none, body⟩

/-- Push world in which every collaborator step succeeds. -/
def pushWorldOk : PushWorld := ⟨none, none, 5, none, ⟨[3, 2], none⟩⟩

/-- Push world in which os.Open on the local path fails with an OS error. -/
def pushWorldOpenFails : PushWorld :=
  ⟨some "open /no/such/file: no such file or directory", none, 0, none, ⟨[], none⟩⟩

/-- Case analysis of parseDeviceState as an if-chain over the three known
tokens. -/
theorem parseDeviceState_eq (s : String) :
    parseDeviceState s =
      (if s = "" then (DeviceState.StateDisconnected, none)
       else if s = "offline" then (DeviceState.StateOffline, none)
       else if s = "device" then (DeviceState.StateOnline, none)
       else (DeviceState.StateDisconnected, none)) := by
  unfold parseDeviceState deviceStateLookup
  split_ifs <;> rfl

/-- Claim C2: parseDeviceState is total and never returns an error, and it
maps "" to Disconnected, "offline" to Offline, "device" to Online, and
every other token to Disconnected — never to Invalid and never to an
error. -/
theorem c2_parse_state_total :
    (∀ s, (parseDeviceState s).2 = none) ∧
    parseDeviceState "" = (.StateDisconnected, none) ∧
    parseDeviceState "offline" = (.StateOffline, none) ∧
    parseDeviceState "device" = (.StateOnline, none) ∧
    (∀ s, s ≠ "" → s ≠ "offline" → s ≠ "device" →
      parseDeviceState s = (.StateDisconnected, none)) ∧
    (∀ s, (parseDeviceState s).1 ≠ .StateInvalid) := by
  refine ⟨?_, rfl, rfl, rfl, ?_, ?_⟩
  · intro s
    rw [parseDeviceState_eq]
    split_ifs <;> rfl
  · intro s h1 h2 h3
    rw [parseDeviceState_eq, if_neg h1, if_neg h2, if_neg h3]
  · intro s
    rw [parseDeviceState_eq]
    split_ifs <;> simp

/-- Witness for C2 at the unknown token "banana": it is classified as
Disconnected with a nil error, and never as Invalid. -/
theorem c2_witness :
    parseDeviceState "banana" = (.StateDisconnected, none) ∧
    (parseDeviceState "banana").1 ≠ .StateInvalid :=
  ⟨c2_parse_state_total.2.2.2.2.1 "banana" (by decide) (by decide) (by decide),
   c2_parse_state_total.2.2.2.2.2 "banana"⟩

/-- Claim C4: for every device-descriptor variant, the host prefix and the
transport descriptor are exactly the literal strings of the protocol:
Any, Usb, Local, Serial(s) and TransportId(t) forms. -/
theorem c4_descriptor_literal_strings (s t : String) :
    getHostPrefixStr AnyDevice = "host" ∧
    getHostPrefixStr AnyUsbDevice = "host-usb" ∧
    getHostPrefixStr AnyLocalDevice = "host-local" ∧
    getHostPrefixStr (DeviceWithSerial s) = "host-serial:" ++ s ∧
    getHostPrefixStr (DeviceWithTransportId t) = "host-transport-id:" ++ t ∧
    getTransportDescriptor AnyDevice = "transport-any" ∧
    getTransportDescriptor AnyUsbDevice = "transport-usb" ∧
    getTransportDescriptor AnyLocalDevice = "transport-local" ∧
    getTransportDescriptor (DeviceWithSerial s) = "transport:" ++ s ∧
    getTransportDescriptor (DeviceWithTransportId t) = "transport-id:" ++ t :=
  ⟨rfl, rfl, rfl, rfl, rfl, rfl, rfl, rfl, rfl, rfl⟩

/-- The argument scan finds no quoted argument exactly when no argument
contains a double quote, at any starting index. -/
theorem findQuoteArg_eq_none_iff (args : List String) (i : Nat) :
    findQuoteArg args i = none ↔ args.any hasDoubleQuote = false := by
  induction args generalizing i with
  | nil => simp [findQuoteArg]
  | cons a rest ih =>
    by_cases h : hasDoubleQuote a
    · simp [findQuoteArg, h]
    · simp [findQuoteArg, h, ih]

/-- A successful preparation carries no error kind. -/
theorem errCodeOf_ok (s : String) : errCodeOf (.ok s) = none := rfl

/-- Claim C5 (amended): prepareCommandLine fails with a validation
(assertion) error exactly when cmd is empty or all-whitespace; it fails
with a parse error exactly when cmd is not blank and some argument
contains a double quote — the blank-command check runs first and takes
precedence; otherwise it returns cmd and the arguments joined with single
spaces in their given order, with no quoting or escaping applied. -/
theorem c5_prepare_command_line (cmd : String) (args : List String) :
    (errCodeOf (prepareCommandLine cmd args) = some .assertionError ↔ isBlank cmd = true) ∧
    (errCodeOf (prepareCommandLine cmd args) = some .parseError ↔
      (isBlank cmd = false ∧ args.any hasDoubleQuote = true)) ∧
    (isBlank cmd = false → args.any hasDoubleQuote = false →
      prepareCommandLine cmd args =
        .ok (if 0 < args.length then cmd ++ " " ++ String.intercalate " " args else cmd)) := by
  by_cases hb : isBlank cmd = true
  · refine ⟨?_, ?_, ?_⟩
    · simp [prepareCommandLine, hb, errCodeOf]
    · simp [prepareCommandLine, hb, errCodeOf]
    · intro h1
      rw [hb] at h1
      exact absurd h1 (by decide)
  · have hbf : isBlank cmd = false := by
      cases hIs : isBlank cmd
      · rfl
      · exact absurd hIs hb
    cases hq : findQuoteArg args 0 with
    | none =>
      have hany : args.any hasDoubleQuote = false := (findQuoteArg_eq_none_iff args 0).mp hq
      have hrep : prepareCommandLine cmd args =
          if 0 < args.length then .ok (cmd ++ " " ++ String.intercalate " " args) else .ok cmd := by
        unfold prepareCommandLine
        rw [hbf, hq]
        try exact rfl
      refine ⟨?_, ?_, ?_⟩
      · rw [hrep]
        split_ifs <;> simp [errCodeOf_ok, hbf]
      · rw [hrep]
        split_ifs <;> simp [errCodeOf_ok, hany]
      · intro _ _
        rw [hrep]
        split_ifs <;> rfl
    | some p =>
      have hany : args.any hasDoubleQuote = true := by
        cases hA : args.any hasDoubleQuote
        · rw [(findQuoteArg_eq_none_iff args 0).mpr hA] at hq
          exact absurd hq (by simp)
        · rfl
      refine ⟨?_, ?_, ?_⟩
      · simp [prepareCommandLine, hbf, hq, errCodeOf, hb]
      · simp [prepareCommandLine, hbf, hq, errCodeOf, hbf, hany]
      · intro _ h2
        rw [hany] at h2
        exact absurd h2 (by decide)

/-- Claim C5 counterexample: at cmd = "" with the single argument a"b,
which contains a double quote, the call fails with the validation
(assertion) error, not with a parse error, so "fails with a parse error if
and only if some argument contains a double-quote character" is false as
stated. -/
theorem c5_cex :
    hasDoubleQuote "a\"b" = true ∧
    errCodeOf (prepareCommandLine "" ["a\"b"]) = some .assertionError ∧
    ¬ errCodeOf (prepareCommandLine "" ["a\"b"]) = some .parseError := by decide

/-- Witness for C5: a well-formed command with two plain arguments is
joined with single spaces. -/
theorem c5_witness : prepareCommandLine "ls" ["-l", "-a"] = .ok "ls -l -a" := by
  have h := (c5_prepare_command_line "ls" ["-l", "-a"]).2.2 (by decide) (by decide)
  exact h.trans (congrArg Except.ok (by decide))

/-- Claim C1 (amended): dialDevice observes the close discipline — a dial
failure opens no connection (zero closes), and a failure sending the
transport request or reading its status reply closes the just-opened
connection exactly once before the error is returned; getSyncConn,
however, returns the error without closing the connection when sending
"sync:" or reading its status reply fails, so zero (not one) close calls
are observed on those failure paths. -/
theorem c1_close_discipline (w : TransportWorld) (d : DeviceDescriptor) :
    (∀ e, w.dialResult = some e →
      (dialDevice w d).2.closeCalls = 0 ∧ isErrRes (dialDevice w d).1 = true) ∧
    (w.dialResult = none →
      (w.sendTransportResult ≠ none ∨
        (w.sendTransportResult = none ∧ w.readTransportStatus ≠ none)) →
      (dialDevice w d).2.closeCalls = 1 ∧ isErrRes (dialDevice w d).1 = true) ∧
    (w.dialResult = none → w.sendTransportResult = none → w.readTransportStatus = none →
      (w.sendSyncResult ≠ none ∨ (w.sendSyncResult = none ∧ w.readSyncStatus ≠ none)) →
      (getSyncConn w d).2.closeCalls = 0 ∧ isErrRes (getSyncConn w d).1 = true) := by
  refine ⟨?_, ?_, ?_⟩
  · intro e he
    simp [dialDevice, he, isErrRes]
  · intro hd hAB
    rcases hAB with hA | ⟨hs, hr⟩
    · cases hSt : w.sendTransportResult with
      | none => exact absurd hSt hA
      | some e => simp [dialDevice, hd, hSt, closeOnce, isErrRes]
    · cases hRt : w.readTransportStatus with
      | none => exact absurd hRt hr
      | some e => simp [dialDevice, hd, hs, hRt, closeOnce, isErrRes]
  · intro hd hs hr hAB
    rcases hAB with hA | ⟨hss, hrs⟩
    · cases hSy : w.sendSyncResult with
      | none => exact absurd hSy hA
      | some e => simp [getSyncConn, dialDevice, hd, hs, hr, hSy, isErrRes]
    · cases hRs : w.readSyncStatus with
      | none => exact absurd hRs hrs
      | some e => simp [getSyncConn, dialDevice, hd, hs, hr, hss, hRs, isErrRes]

/-- Claim C1 counterexample: in the world where dialing and the transport
handshake succeed but sending "sync:" fails, getSyncConn returns the
error while zero close calls — not exactly one — are observed on the
dialed connection, so a connection is leaked on this failure path. -/
theorem c1_cex :
    isErrRes (getSyncConn worldSendSyncFails AnyDevice).1 = true ∧
    (getSyncConn worldSendSyncFails AnyDevice).2.closeCalls = 0 ∧
    ¬ (getSyncConn worldSendSyncFails AnyDevice).2.closeCalls = 1 := by decide

/-- Witness for C1 at concrete worlds: a transport-send failure and a
transport-status failure each close the dialed connection exactly once,
and a "sync:" send failure closes it zero times. -/
theorem c1_witness :
    (dialDevice worldSendTransportFails AnyDevice).2.closeCalls = 1 ∧
    isErrRes (dialDevice worldSendTransportFails AnyDevice).1 = true ∧
    (dialDevice worldReadTransportFails AnyDevice).2.closeCalls = 1 ∧
    (getSyncConn worldSendSyncFails AnyDevice).2.closeCalls = 0 ∧
    isErrRes (getSyncConn worldSendSyncFails AnyDevice).1 = true := by
  have h1 := (c1_close_discipline worldSendTransportFails AnyDevice).2.1 rfl
    (Or.inl (by simp [worldSendTransportFails]))
  have h2 := (c1_close_discipline worldReadTransportFails AnyDevice).2.1 rfl
    (Or.inr ⟨rfl, by simp [worldReadTransportFails]⟩)
  have h3 := (c1_close_discipline worldSendSyncFails AnyDevice).2.2 rfl rfl rfl
    (Or.inl (by simp [worldSendSyncFails]))
  exact ⟨h1.1, h1.2, h2.1, h3.1, h3.2⟩

/-- Claim C3 counterexample: the wrapped message renders the reflected
client type, not the device: two devices with different serials produce
the identical message "error performing State on *adb.Device", which does
not contain the serial and differs from a rendering that names the
device. -/
theorem c3_cex :
    wrapMsgOf (wrapClientError (some sampleWireErr) ⟨DeviceWithSerial "ABC123"⟩ "State") =
      some "error performing State on *adb.Device" ∧
    wrapMsgOf (wrapClientError (some sampleWireErr) ⟨DeviceWithSerial "XYZ"⟩ "State") =
      wrapMsgOf (wrapClientError (some sampleWireErr) ⟨DeviceWithSerial "ABC123"⟩ "State") ∧
    goContains "error performing State on *adb.Device" "ABC123" = false ∧
    ¬ "error performing State on *adb.Device" =
        "error performing State on " ++ descString (DeviceWithSerial "ABC123") := by decide

/-- Claim C3 (amended): every error wrapped at a public operation boundary
has the message "error performing <operation> on <client type>", where the
client type is the reflected Go type of the device handle — the same
string for every device — while the specific device descriptor is
attached as the structured Details field and the original error is
preserved as the cause. -/
theorem c3_wrap_shape (code : ErrCode) (m : String) (cse : Option GoError)
    (det : Option DeviceDescriptor) (dev : Device) (op : String) :
    wrapClientError (some (.adbErr code m cse det)) dev op =
      .ok (some (.adbErr code ("error performing " ++ op ++ " on " ++ "*adb.Device")
        (some (.adbErr code m cse det)) (some dev.descriptor))) := rfl

/-- Every error value other than an os.PathError wrapping EPIPE passes
through the broken-pipe normalization unchanged. -/
theorem normalizePipeErr_other (e : CopyErr) (hne : e ≠ .pathError (.errnoVal EPIPE)) :
    normalizePipeErr (some e) = some e := by
  cases e with
  | pathError inner =>
    cases inner with
    | errnoVal n =>
      by_cases hn : n = EPIPE
      · subst hn
        exact absurd rfl hne
      · simp [normalizePipeErr, hn]
    | otherSys m => rfl
  | errnoError n => rfl
  | adbError c m => rfl
  | otherError m => rfl

/-- Claim C6 (amended): a broken-pipe failure during the copy is
normalized to success by both copy helpers only when io.Copy's error is an
os.PathError whose inner error is the EPIPE errno; an EPIPE delivered as
any other error value, and every other I/O failure, is returned as-is. -/
theorem c6_epipe_normalization (sp : Bool) (size : Int) (cb : Bool) (total : Int)
    (inp : CopyInput) :
    (inp.copyErr = some (.pathError (.errnoVal EPIPE)) →
      (copyFile total inp).1 = none ∧ (copyWithProgressAndStats sp size cb inp).1 = none) ∧
    (∀ e, inp.copyErr = some e → e ≠ .pathError (.errnoVal EPIPE) →
      (copyFile total inp).1 = some e ∧ (copyWithProgressAndStats sp size cb inp).1 = some e) ∧
    (inp.copyErr = none →
      (copyFile total inp).1 = none ∧ (copyWithProgressAndStats sp size cb inp).1 = none) := by
  refine ⟨?_, ?_, ?_⟩
  · intro h
    simp [copyFile, copyWithProgressAndStats, normalizePipeErr, h, EPIPE]
  · intro e he hne
    have hkeep := normalizePipeErr_other e hne
    simp [copyFile, copyWithProgressAndStats, he, hkeep]
  · intro h
    simp [copyFile, copyWithProgressAndStats, normalizePipeErr, h]

/-- Claim C6 counterexample: a copy failing with the EPIPE errno delivered
as a bare errno error — not wrapped in an os.PathError — is returned
as an error by both helpers instead of being normalized to success. -/
theorem c6_cex :
    EPIPE = 32 ∧
    normalizePipeErr (some (.errnoError 32)) = some (.errnoError 32) ∧
    (copyFile 0 ⟨[], some (.errnoError 32)⟩).1 = some (.errnoError 32) ∧
    ¬ (copyWithProgressAndStats true 5 true ⟨[5], some (.errnoError 32)⟩).1 = none := by decide

/-- Witness for C6: a PathError-wrapped EPIPE is normalized to success,
and a different I/O failure is returned as-is. -/
theorem c6_witness :
    (copyFile 10 ⟨[4, 6], some (.pathError (.errnoVal 32))⟩).1 = none ∧
    (copyWithProgressAndStats true 10 true ⟨[4, 6], some (.otherError "disk full")⟩).1 =
      some (.otherError "disk full") := by
  have h1 := (c6_epipe_normalization true 10 true 10 ⟨[4, 6], some (.pathError (.errnoVal 32))⟩).1 rfl
  have h2 := (c6_epipe_normalization true 10 true 10 ⟨[4, 6], some (.otherError "disk full")⟩).2.1
    (.otherError "disk full") rfl (by decide)
  exact ⟨h1.1, h2.2⟩

/-- Claim C7: RunCommand sends "shell:<prepared command>" on a connection
scoped to the device by the transport handshake, reads the status line,
reads until end-of-stream with no length header, and returns exactly the
accumulated bytes as a string (the deferred close fires once on exit). -/
theorem c7_run_command (w : TransportWorld) (dev : Device) (cmd : String)
    (args : List String) (pc : String) :
    prepareCommandLine cmd args = .ok pc →
    w.dialResult = none → w.sendTransportResult = none → w.readTransportStatus = none →
    w.sendShellResult = none → w.readShellStatus = none → w.readEofResult = none →
    RunCommand w dev cmd args =
      (.ret w.eofBody none,
       ⟨["host:" ++ getTransportDescriptor dev.descriptor, "shell:" ++ pc], 1⟩) := by
  intro hpc hd hs hr hss hrs he
  simp [RunCommand, hpc, dialDevice, hd, hs, hr, hss, hrs, he, closeOnce, retWrapped,
    wrapClientError]

/-- Witness for C7: a connection that delivers the bytes "hello" and a
newline and then closes yields exactly those bytes with no error, after
the request "shell:echo hello" was sent on the device-scoped connection. -/
theorem c7_witness :
    RunCommand (worldShellOk "hello\n") ⟨AnyDevice⟩ "echo" ["hello"] =
      (.ret "hello\n" none, ⟨["host:transport-any", "shell:echo hello"], 1⟩) := by
  have h := c7_run_command (worldShellOk "hello\n") ⟨AnyDevice⟩ "echo" ["hello"] "echo hello"
    rfl rfl rfl rfl rfl rfl rfl
  exact h

/-- Claim C8: when progress display is enabled, the total size is known
and positive, and an observer is supplied, the observer receives at least
one event and the final event's cumulative-bytes value equals the total
bytes written; when the size is zero or unknown (e.g. a standard-input
push) the observer receives zero events but the copy still proceeds, its
error outcome unchanged. -/
theorem c8_progress_events (sp : Bool) (size : Int) (cb : Bool) (inp : CopyInput)
    (w : PushWorld) (dev : Device) (rp : String) :
    (sp = true → 0 < size → cb = true →
      (copyWithProgressAndStats sp size cb inp).2 ≠ [] ∧
      ((copyWithProgressAndStats sp size cb inp).2).getLast? =
        some ⟨sumChunks inp.chunks, size⟩) ∧
    (size ≤ 0 → (copyWithProgressAndStats sp size cb inp).2 = []) ∧
    ((copyWithProgressAndStats sp size cb inp).1 = normalizePipeErr inp.copyErr) ∧
    (rp ≠ "" → (PushWithProgress w dev sp "-" rp cb).2 = []) := by
  refine ⟨?_, ?_, rfl, ?_⟩
  · intro h1 h2 h3
    constructor
    · simp [copyWithProgressAndStats, h1, h2, h3, pbEvents]
    · simp [copyWithProgressAndStats, h1, h2, h3, pbEvents, List.getLast?_concat]
  · intro hle
    have hnot : ¬ (0 : Int) < size := not_lt.mpr hle
    simp [copyWithProgressAndStats, hnot]
  · intro hrp
    have hrp2 : ¬ rp = "" := hrp
    simp only [PushWithProgress, if_neg hrp2]
    rw [if_pos (Or.inr trivial : "-" = "" ∨ True)]
    have hzero : ¬ (0 : Int) < 0 := lt_irrefl 0
    cases hw : w.openWriteErr with
    | some e => simp [pushCore, hw]
    | none => simp [pushCore, hw, copyWithProgressAndStats, hzero]

/-- Witness for C8: with size 5 and chunks of 3 and 2 bytes the observer
gets a nonempty event list ending at cumulative 5 of 5; with size 0 (the
standard-input case) it gets no events, also through a full
PushWithProgress run reading standard input. -/
theorem c8_witness :
    (copyWithProgressAndStats true 5 true ⟨[3, 2], none⟩).2 ≠ [] ∧
    ((copyWithProgressAndStats true 5 true ⟨[3, 2], none⟩).2).getLast? = some ⟨5, 5⟩ ∧
    (copyWithProgressAndStats true 0 true ⟨[3, 2], none⟩).2 = [] ∧
    (PushWithProgress pushWorldOk ⟨AnyDevice⟩ true "-" "/data/x" true).2 = [] := by
  have h5 := c8_progress_events true 5 true ⟨[3, 2], none⟩ pushWorldOk ⟨AnyDevice⟩ "/data/x"
  have h0 := c8_progress_events true 0 true ⟨[3, 2], none⟩ pushWorldOk ⟨AnyDevice⟩ "/data/x"
  have ha := h5.1 rfl (by decide) rfl
  exact ⟨ha.1, ha.2, h0.2.1 (by decide), h5.2.2.2 (by decide)⟩

/-- Claim C9: a State query whose attribute fetch fails with an error
whose message contains "unauthorized" returns the Unauthorized state with
a nil error; any other fetch error of the library's uniform type is
returned wrapped, with the Invalid state. -/
theorem c9_state_unauthorized (e : GoError) (dev : Device) (code : ErrCode) (msg : String) :
    (goContains (GoError.errMessage e) "unauthorized" = true →
      stateQuery (.error e) dev = .ret .StateUnauthorized none) ∧
    (goContains msg "unauthorized" = false →
      stateQuery (.error (.adbErr code msg none none)) dev =
        .ret .StateInvalid (some (.adbErr code
          "error performing State on *adb.Device"
          (some (.adbErr code msg none none)) (some dev.descriptor)))) := by
  constructor
  · intro h
    simp [stateQuery, h]
  · intro h
    simp [stateQuery, GoError.errMessage, h, retWrapped, wrapClientError, reflectTypeName]

/-- Witness for C9: an unauthorized-looking fetch error yields the
Unauthorized state and a nil error, while a plain connection error yields
the Invalid state with the wrapped error carrying the cause. -/
theorem c9_witness :
    stateQuery (.error (.adbErr .networkError "device unauthorized" none none)) ⟨AnyDevice⟩ =
      .ret .StateUnauthorized none ∧
    stateQuery (.error (.adbErr .networkError "connection reset" none none)) ⟨AnyDevice⟩ =
      .ret .StateInvalid (some (.adbErr .networkError
        "error performing State on *adb.Device"
        (some (.adbErr .networkError "connection reset" none none)) (some AnyDevice))) := by
  constructor
  · exact (c9_state_unauthorized (.adbErr .networkError "device unauthorized" none none)
      ⟨AnyDevice⟩ .networkError "x").1 (by decide)
  · exact (c9_state_unauthorized (.osErr "") ⟨AnyDevice⟩ .networkError "connection reset").2
      (by decide)

/-- Claim C10: wrapClientError returns nil exactly when its error argument
is nil and panics on every non-nil error that is not the library's type;
consequently a PushWithProgress whose local-path open fails with an OS
error panics instead of returning a wrapped error. -/
theorem c10_wrap_panic (err : Option GoError) (dev : Device) (op : String)
    (w : PushWorld) (sp cb : Bool) (lp rp m : String) :
    ((wrapClientError err dev op = .ok none) ↔ err = none) ∧
    (wrapClientError (some (.osErr m)) dev op = .panicked ("err is not a *Err: " ++ m)) ∧
    (rp ≠ "" → lp ≠ "" → lp ≠ "-" → w.osOpenErr = some m →
      (PushWithProgress w dev sp lp rp cb).1 =
        .panicked ("err is not a *Err: " ++ m)) := by
  refine ⟨?_, rfl, ?_⟩
  · constructor
    · intro h
      cases err with
      | none => rfl
      | some e =>
        cases e with
        | adbErr c m2 cse det => simp [wrapClientError] at h
        | osErr m2 => simp [wrapClientError] at h
    · intro h
      subst h
      rfl
  · intro h1 h2 h3 h4
    have h1n : ¬ rp = "" := h1
    have hloc : ¬ (lp = "" ∨ lp = "-") := by
      intro hc
      rcases hc with hc | hc
      · exact h2 hc
      · exact h3 hc
    simp [PushWithProgress, if_neg h1n, if_neg hloc, h4, retWrapped, wrapClientError]

/-- Witness for C10: nil stays nil; a bare OS error panics; and a push
whose local open fails with an OS error panics with that error's message
instead of returning a wrapped error. -/
theorem c10_witness :
    wrapClientError none ⟨AnyDevice⟩ "Serial" = .ok none ∧
    wrapClientError (some (.osErr "stat failed")) ⟨AnyDevice⟩ "PushWithProgress" =
      .panicked "err is not a *Err: stat failed" ∧
    (PushWithProgress pushWorldOpenFails ⟨AnyDevice⟩ true "/no/such/file" "/data/x" true).1 =
      .panicked "err is not a *Err: open /no/such/file: no such file or directory" := by
  have h := c10_wrap_panic none ⟨AnyDevice⟩ "Serial" pushWorldOpenFails true true
    "/no/such/file" "/data/x" "open /no/such/file: no such file or directory"
  refine ⟨h.1.mpr rfl, ?_, h.2.2 (by decide) (by decide) (by decide) rfl⟩
  exact (c10_wrap_panic none ⟨AnyDevice⟩ "PushWithProgress" pushWorldOpenFails true true
    "x" "y" "stat failed").2.1
